import Mathlib

/-!
Verification of the agent-routing core of a multi-agent medical diagnosis
application (src/agents.py).

Modelling conventions:
* Python strings are lists of Unicode code points (`PyStr := List Nat`).
  `str.lower` is modelled by its action on the ASCII letters, on which the
  program's keyword and marker data lives (every non-ASCII code point is
  left fixed; U+00DF, which Python's lower also fixes, stays faithful).
  `str.upper` is modelled as a string-level map faithful on ASCII together
  with U+00DF, whose Python uppercasing is the two-letter string "SS" — a
  length-changing full case mapping that breaks case-insensitive scoring.
* Python floats are modelled by rationals.  Every confidence score the
  program compares against the thresholds 0.3 and 0.2 has the form
  min(2*m/n, 1) with n ∈ {29, 30, 28, 17}; for these denominators the
  double-precision evaluation of `matches / n * 2` and the float literals
  0.3 / 0.2 order exactly as the rationals do, so the rational model is
  comparison-faithful.
* The generative backend is an explicit function from the attempt number
  to either a raised error message (`Except.error`) or a returned text
  (`Except.ok`); `random.uniform(0,1)` jitter is an explicit sequence.
-/

set_option maxRecDepth 4000

/-- Python strings, modelled as lists of Unicode code points. -/
abbrev PyStr := List Nat

/-- Code points of a Lean string literal, used to embed Python literals. -/
def pyStr (s : String) : PyStr := s.data.map Char.toNat

/-- Action of Python `str.lower` on one code point (ASCII letters only;
other code points are left fixed). -/
def lowerChar (c : Nat) : Nat := if 65 ≤ c ∧ c ≤ 90 then c + 32 else c

/-- Action of Python `str.upper` on one ASCII code point (letters a-z map
to A-Z; other code points are left fixed here, with the non-ASCII
exception U+00DF handled by `upperCharStr`). -/
def upperChar (c : Nat) : Nat := if 97 ≤ c ∧ c ≤ 122 then c - 32 else c

/-- Python `s.lower()` (faithful on the ASCII range; non-ASCII code
points are fixed, which agrees with Python on U+00DF). -/
def pyLower (s : PyStr) : PyStr := s.map lowerChar

/-- Python `str.upper` of one code point, as a string: U+00DF, the sharp
s "ß", uppercases to the two-letter string "SS" (a length-changing full
case mapping); ASCII letters map as usual; every other code point is left
fixed.  Faithful to Python on ASCII together with U+00DF. -/
def upperCharStr (c : Nat) : PyStr := if c = 223 then [83, 83] else [upperChar c]

/-- Python `s.upper()`: the concatenation of the uppercasings of the
code points. -/
def pyUpper (s : PyStr) : PyStr := s.flatMap upperCharStr

/-- Python substring test `sub in s` (true for the empty needle, including
on the empty haystack). -/
def containsSub (sub : PyStr) : PyStr → Bool
  | [] => sub.isEmpty
  | c :: t => sub.isPrefixOf (c :: t) || containsSub sub t

/-- The `matches` count of `BaseSpecializedAgent.get_confidence_score`
(src/agents.py line 146): the number of keywords whose lowering occurs as a
substring of the lowered text. -/
def matchCount (keywords : List PyStr) (text : PyStr) : Nat :=
  keywords.countP (fun keyword => containsSub (pyLower keyword) (pyLower text))

/-- Embedding of `BaseSpecializedAgent.get_confidence_score`
(src/agents.py lines 141-149): `min(matches / len(keywords) * 2, 1.0)`. -/
def get_confidence_score (keywords : List PyStr) (report_text : PyStr) : ℚ :=
  min ((matchCount keywords report_text : ℚ) / (keywords.length : ℚ) * 2) 1

/-- Keyword list of `CardiologistAgent.get_specialty_keywords`
(src/agents.py lines 188-195). -/
def cardiologyKeywords : List PyStr :=
  [pyStr "heart", pyStr "cardiac", pyStr "cardiovascular", pyStr "coronary",
   pyStr "artery", pyStr "blood pressure", pyStr "hypertension", pyStr "cholesterol",
   pyStr "ECG", pyStr "EKG", pyStr "echocardiogram", pyStr "chest pain",
   pyStr "palpitations", pyStr "shortness of breath", pyStr "angina",
   pyStr "myocardial", pyStr "infarction", pyStr "stroke", pyStr "atherosclerosis",
   pyStr "valve", pyStr "rhythm", pyStr "arrhythmia", pyStr "tachycardia",
   pyStr "bradycardia", pyStr "murmur", pyStr "lipid", pyStr "triglycerides",
   pyStr "HDL", pyStr "LDL"]

/-- Keyword list of `PsychologistAgent.get_specialty_keywords`
(src/agents.py lines 226-233). -/
def psychologyKeywords : List PyStr :=
  [pyStr "depression", pyStr "anxiety", pyStr "stress", pyStr "mood",
   pyStr "mental", pyStr "psychological", pyStr "sleep", pyStr "insomnia",
   pyStr "fatigue", pyStr "cognitive", pyStr "memory", pyStr "concentration",
   pyStr "panic", pyStr "phobia", pyStr "trauma", pyStr "PTSD", pyStr "bipolar",
   pyStr "psychosis", pyStr "therapy", pyStr "counseling", pyStr "psychiatric",
   pyStr "antidepressant", pyStr "anxiolytic", pyStr "behavior", pyStr "emotional",
   pyStr "social", pyStr "isolation", pyStr "suicidal", pyStr "self-harm",
   pyStr "addiction"]

/-- Keyword list of `PulmonologistAgent.get_specialty_keywords`
(src/agents.py lines 264-271). -/
def pulmonologyKeywords : List PyStr :=
  [pyStr "lung", pyStr "pulmonary", pyStr "respiratory", pyStr "breathing",
   pyStr "breath", pyStr "cough", pyStr "asthma", pyStr "COPD", pyStr "pneumonia",
   pyStr "bronchitis", pyStr "chest", pyStr "wheeze", pyStr "shortness of breath",
   pyStr "dyspnea", pyStr "oxygen", pyStr "saturation", pyStr "spirometry",
   pyStr "chest X-ray", pyStr "CT scan", pyStr "tuberculosis", pyStr "emphysema",
   pyStr "fibrosis", pyStr "apnea", pyStr "smoking", pyStr "tobacco",
   pyStr "inhaler", pyStr "nebulizer", pyStr "sputum"]

/-- Keyword list of `GeneralMedicineAgent.get_specialty_keywords`
(src/agents.py lines 301-306). -/
def generalKeywords : List PyStr :=
  [pyStr "general", pyStr "overall", pyStr "health", pyStr "medical",
   pyStr "examination", pyStr "screening", pyStr "laboratory", pyStr "blood test",
   pyStr "urine", pyStr "vital signs", pyStr "temperature", pyStr "weight",
   pyStr "BMI", pyStr "vaccination", pyStr "medication", pyStr "prescription",
   pyStr "dosage"]

/-- Keys of the router's agent dictionary (src/agents.py lines 313-318),
in insertion order cardiology, psychology, pulmonology, general. -/
inductive AgentKey
  | cardiology
  | psychology
  | pulmonology
  | general
deriving DecidableEq, Repr

/-- Keyword list of each agent, as returned by its
`get_specialty_keywords` method. -/
def keywordsOf : AgentKey → List PyStr
  | AgentKey.cardiology => cardiologyKeywords
  | AgentKey.psychology => psychologyKeywords
  | AgentKey.pulmonology => pulmonologyKeywords
  | AgentKey.general => generalKeywords

/-- The text scored by the router (src/agents.py line 330):
`report_text + " " + symptoms`. -/
def routingText (report_text symptoms : PyStr) : PyStr :=
  report_text ++ pyStr " " ++ symptoms

/-- Python `max(d, key=d.get)` over the items of a dict in insertion order:
scan left to right, replacing the current best only on a strictly larger
value, so the first maximal key wins. -/
def pyDictMax : AgentKey × ℚ → List (AgentKey × ℚ) → AgentKey × ℚ
  | best, [] => best
  | best, p :: rest => pyDictMax (if best.2 < p.2 then p else best) rest

/-- Lookup in an insertion-ordered association list, as Python dict
subscription restricted to the keys present. -/
def lookupScore : List (AgentKey × ℚ) → AgentKey → Option ℚ
  | [], _ => none
  | p :: rest, k => if p.1 = k then some p.2 else lookupScore rest k

/-- Embedding of `MedicalAgentRouter.route_to_agent`
(src/agents.py lines 320-345).  The confidence dict is scored for the three
non-general agents in insertion order on `report_text + " " + symptoms`;
the best scorer is selected unless its score is below 0.3, in which case
the primary becomes `general` with recorded score 1.0.  `medical_history`
is accepted (as in the source signature) and never read.  The returned
agent object of the source is determined by the returned key, so the
embedding returns the key together with the confidence dict. -/
def route_to_agent (report_text symptoms medical_history : PyStr) :
    AgentKey × List (AgentKey × ℚ) :=
  let text := routingText report_text symptoms
  let confidence_scores : List (AgentKey × ℚ) :=
    [(AgentKey.cardiology, get_confidence_score cardiologyKeywords text),
     (AgentKey.psychology, get_confidence_score psychologyKeywords text),
     (AgentKey.pulmonology, get_confidence_score pulmonologyKeywords text)]
  match confidence_scores with
  | [] => (AgentKey.general, [(AgentKey.general, 1)])
  | first :: rest =>
    let best := pyDictMax first rest
    if best.2 < 3/10 then
      (AgentKey.general, confidence_scores ++ [(AgentKey.general, 1)])
    else
      (best.1, confidence_scores)

/-- Result of `MedicalAgentRouter.get_multi_agent_analysis`
(src/agents.py lines 347-376), with the generated analysis texts (opaque
backend completions) abstracted away: the primary key, the primary
confidence `confidence_scores.get(primary, 1.0)`, the secondary agents in
iteration order with their confidences, and the full confidence dict. -/
structure MultiAgentAnalysis where
  primary_key : AgentKey
  primary_confidence : ℚ
  secondary : List (AgentKey × ℚ)
  all_scores : List (AgentKey × ℚ)
deriving Repr

/-- Embedding of `MedicalAgentRouter.get_multi_agent_analysis`
(src/agents.py lines 347-376): route, then keep every dict entry whose key
differs from the primary and whose confidence exceeds 0.2 as a secondary
agent. -/
def get_multi_agent_analysis (report_text symptoms medical_history : PyStr) :
    MultiAgentAnalysis :=
  let routed := route_to_agent report_text symptoms medical_history
  ⟨routed.1,
   (lookupScore routed.2 routed.1).getD 1,
   routed.2.filter (fun p => decide (p.1 ≠ routed.1) && decide ((1:ℚ)/5 < p.2)),
   routed.2⟩

/-- Fields stored by `BaseSpecializedAgent.__init__`
(src/agents.py lines 69-79), together with the keyword list supplied by the
subclass `get_specialty_keywords` method. -/
structure SpecializedAgent where
  specialty : PyStr
  specialty_icon : PyStr
  keywords : List PyStr
deriving DecidableEq, Repr

/-- Embedding of agent construction (`BaseSpecializedAgent.__init__`,
src/agents.py lines 69-79, plus the subclass keyword method): the
constructor stores its fields, performs no validation of the keyword list,
and raises nothing; the `Except` layer records whether a configuration
error is raised (it never is). -/
def initSpecializedAgent (specialty specialty_icon : PyStr)
    (keywords : List PyStr) : Except PyStr SpecializedAgent :=
  Except.ok ⟨specialty, specialty_icon, keywords⟩

/-- Embedding of `MedicalAgentRouter.__init__` (src/agents.py lines
311-318): construct the four concrete agents with their hardcoded keyword
lists and store them under their dict keys; no validation, nothing raised. -/
def initMedicalAgentRouter : Except PyStr (List (AgentKey × SpecializedAgent)) := do
  let cardio ← initSpecializedAgent (pyStr "Cardiology") (pyStr "🫀") cardiologyKeywords
  let psych ← initSpecializedAgent (pyStr "Psychology/Mental Health") (pyStr "🧠") psychologyKeywords
  let pulmo ← initSpecializedAgent (pyStr "Pulmonology") (pyStr "🫁") pulmonologyKeywords
  let gen ← initSpecializedAgent (pyStr "General Medicine") (pyStr "🩺") generalKeywords
  Except.ok [(AgentKey.cardiology, cardio), (AgentKey.psychology, psych),
             (AgentKey.pulmonology, pulmo), (AgentKey.general, gen)]

/-- Python `s[:k]` where `k` may be negative (counting from the end of the
string), as used with the possibly negative bound on src/agents.py line 60. -/
def pySliceTo (s : PyStr) (k : Int) : PyStr :=
  if k < 0 then s.take (s.length - k.natAbs) else s.take k.toNat

/-- Python `prompt.split` on the newline character: always returns at least
one (possibly empty) piece. -/
def splitLines : PyStr → List PyStr
  | [] => [[]]
  | c :: t =>
    if c = 10 then [] :: splitLines t
    else
      match splitLines t with
      | [] => [[c]]
      | l :: ls => (c :: l) :: ls

/-- Python newline join of a list of lines. -/
def joinLines : List PyStr → PyStr
  | [] => []
  | [l] => l
  | l :: ls => l ++ 10 :: joinLines ls

/-- The marker-line test of src/agents.py line 48: the line contains
"MEDICAL REPORT:" or "Please analyze". -/
def isMarkerLine (line : PyStr) : Bool :=
  containsSub (pyStr "MEDICAL REPORT:") line || containsSub (pyStr "Please analyze") line

/-- The in_system scan of src/agents.py lines 46-54: lines strictly before
the first marker line are system lines; the marker line and every later
line are content lines. -/
def partitionAtMarker : List PyStr → List PyStr × List PyStr
  | [] => ([], [])
  | l :: ls =>
    if isMarkerLine l then ([], l :: ls)
    else
      let p := partitionAtMarker ls
      (l :: p.1, p.2)

/-- The truncation notice appended on src/agents.py line 60. -/
def truncationNotice : PyStr := pyStr "\n\n[Content truncated to reduce token usage]"

/-- The visible truncation marker text named by the specification. -/
def truncationMarker : PyStr := pyStr "[Content truncated to reduce token usage]"

/-- Embedding of `optimize_prompt` (src/agents.py lines 39-64; the copy in
src/app.py lines 42-73 is identical): on a prompt longer than max_tokens,
split into system and content parts at the first marker line, truncate the
content to `max_tokens - len(system) - 100` characters (a Python slice,
negative bounds counting from the end) and append the truncation notice,
but only when the recombined parts still exceed max_tokens. -/
def optimize_prompt (prompt : PyStr) (max_tokens : Nat) : PyStr :=
  if prompt.length > max_tokens then
    let parts := partitionAtMarker (splitLines prompt)
    let system_text := joinLines parts.1
    let content_text := joinLines parts.2
    let content_final :=
      if (system_text ++ content_text).length > max_tokens then
        pySliceTo content_text ((max_tokens : Int) - (system_text.length : Int) - 100)
          ++ truncationNotice
      else content_text
    system_text ++ 10 :: content_final
  else prompt

/-- Text returned after exhausting retries on rate-limit errors
(src/agents.py line 33). -/
def serviceUnavailableMsg : PyStr :=
  pyStr "🚫 **Service Temporarily Unavailable** - Please try again in a few minutes."

/-- Text returned at once on a non-rate-limit error (src/agents.py line 35). -/
def genericFailureMsg : PyStr :=
  pyStr "Sorry, there was an issue processing your request. Please try again."

/-- Text of the trailing return after the loop (src/agents.py line 37). -/
def maxRetriesExceededMsg : PyStr :=
  pyStr "Maximum retry attempts exceeded. Please try again later."

/-- Rate-limit classification of a stringified error (src/agents.py line
27): "429" anywhere, or "quota" / "rate limit" in the lowered message. -/
def isRateLimitError (e : PyStr) : Bool :=
  containsSub (pyStr "429") e || containsSub (pyStr "quota") (pyLower e) ||
    containsSub (pyStr "rate limit") (pyLower e)

/-- The retry loop of `make_api_call_with_retry` (src/agents.py lines
19-37).  `i` is the current attempt index of the Python
`for attempt in range(max_retries)` loop and `fuel` the number of loop
iterations remaining (`maxRetries - i`); when fuel runs out the function
falls through to the trailing return of line 37.  The result carries the
returned text, the number of backend calls made, and the list of sleep
durations in order. -/
def retryLoop (backend : Nat → Except PyStr PyStr) (jitter : Nat → ℚ)
    (baseDelay : ℚ) (maxRetries : Nat) : Nat → Nat → PyStr × Nat × List ℚ
  | _, 0 => (maxRetriesExceededMsg, 0, [])
  | i, fuel + 1 =>
    match backend i with
    | Except.ok t => (t, 1, [])
    | Except.error e =>
      if isRateLimitError e then
        if i < maxRetries - 1 then
          let rest := retryLoop backend jitter baseDelay maxRetries (i + 1) fuel
          (rest.1, rest.2.1 + 1, (baseDelay * 2 ^ i + jitter i) :: rest.2.2)
        else (serviceUnavailableMsg, 1, [])
      else (genericFailureMsg, 1, [])

/-- Embedding of `make_api_call_with_retry` (src/agents.py lines 9-37).
The backend models `model.generate_content` followed by `.text` as a
function of the attempt number, either raising (`Except.error`, carrying
`str(e)`) or returning text; `jitter i` models the `random.uniform(0, 1)`
sample drawn at attempt `i`.  The call is a total function: every outcome
is returned as text, never propagated as an exception. -/
def make_api_call_with_retry (backend : Nat → Except PyStr PyStr)
    (jitter : Nat → ℚ) (maxRetries : Nat) (baseDelay : ℚ) :
    PyStr × Nat × List ℚ :=
  retryLoop backend jitter baseDelay maxRetries 0 maxRetries

lemma lowerChar_upperChar (c : Nat) : lowerChar (upperChar c) = lowerChar c := by
  simp only [lowerChar, upperChar]
  split_ifs <;> omega

lemma lowerChar_lowerChar (c : Nat) : lowerChar (lowerChar c) = lowerChar c := by
  simp only [lowerChar]
  split_ifs <;> omega

lemma pyLower_pyUpper_ascii (s : PyStr) (h : ∀ c ∈ s, c < 128) :
    pyLower (pyUpper s) = pyLower s := by
  induction s with
  | nil => rfl
  | cons c t ih =>
    have hc : c < 128 := h c (List.mem_cons_self c t)
    have hcs : upperCharStr c = [upperChar c] := by
      rw [upperCharStr, if_neg (by omega)]
    have ht := ih (fun x hx => h x (List.mem_cons_of_mem c hx))
    simp only [pyUpper, pyLower, List.flatMap_cons, hcs, List.singleton_append,
      List.map_cons, lowerChar_upperChar c] at ht ⊢
    rw [ht]

lemma pyLower_pyLower (s : PyStr) : pyLower (pyLower s) = pyLower s := by
  simp only [pyLower, List.map_map]
  exact List.map_congr_left fun a _ => lowerChar_lowerChar a

/-- The boolean Python substring test agrees with the mathematical
contiguous-substring relation. -/
lemma containsSub_iff_substring (sub s : PyStr) : containsSub sub s = true ↔ sub <:+: s := by
  induction s with
  | nil =>
    simp only [containsSub, List.isEmpty_iff, List.infix_nil]
  | cons c t ih =>
    simp only [containsSub, Bool.or_eq_true, List.isPrefixOf_iff_prefix, ih,
      List.infix_cons_iff]

/-- **C9, counterexample.**  Scoring is not case-insensitive for every
input text: with the program's own psychology keyword "stress" as the
keyword list and the text "strEß", the text itself scores 0 (its
lowering "streß" does not contain "stress"), but its Python uppercasing
"STRESS" scores min(2·1/1, 1) = 1, because the sharp s uppercases to
"SS". -/
theorem upper_sharp_s_changes_score :
    get_confidence_score [pyStr "stress"] (pyStr "strEß") = 0 ∧
    get_confidence_score [pyStr "stress"] (pyUpper (pyStr "strEß")) = 1 ∧
    get_confidence_score [pyStr "stress"] (pyUpper (pyStr "strEß")) ≠
      get_confidence_score [pyStr "stress"] (pyStr "strEß") := by
  have h0 : matchCount [pyStr "stress"] (pyStr "strEß") = 0 := by decide
  have h1 : matchCount [pyStr "stress"] (pyUpper (pyStr "strEß")) = 1 := by decide
  have e0 : get_confidence_score [pyStr "stress"] (pyStr "strEß") = 0 := by
    simp only [get_confidence_score, h0, List.length_singleton]
    norm_num
  have e1 : get_confidence_score [pyStr "stress"] (pyUpper (pyStr "strEß")) = 1 := by
    simp only [get_confidence_score, h1, List.length_singleton]
    norm_num
  refine ⟨e0, e1, ?_⟩
  rw [e0, e1]
  norm_num

/-- **C9, amended.**  Confidence scoring is case-insensitive on ASCII
input: for every keyword list and every input text all of whose code
points are ASCII, the score of the text, of its uppercasing and of its
lowercasing coincide.  (On non-ASCII text the claim fails: Python's full
case mapping sends "ß" to "SS".) -/
theorem scoring_case_insensitive_ascii (keywords : List PyStr) (text : PyStr)
    (htext : ∀ c ∈ text, c < 128) :
    get_confidence_score keywords (pyUpper text) = get_confidence_score keywords text ∧
    get_confidence_score keywords (pyLower text) = get_confidence_score keywords text := by
  constructor
  · simp only [get_confidence_score, matchCount, pyLower_pyUpper_ascii text htext]
  · simp only [get_confidence_score, matchCount, pyLower_pyLower]

/-- Witness for C9 at an ASCII text and the psychology keyword list:
uppercasing and lowercasing leave the score unchanged. -/
theorem scoring_case_insensitive_ascii_witness :
    get_confidence_score psychologyKeywords (pyUpper (pyStr "Chronic STRESS and insomnia")) =
      get_confidence_score psychologyKeywords (pyStr "Chronic STRESS and insomnia") ∧
    get_confidence_score psychologyKeywords (pyLower (pyStr "Chronic STRESS and insomnia")) =
      get_confidence_score psychologyKeywords (pyStr "Chronic STRESS and insomnia") :=
  scoring_case_insensitive_ascii psychologyKeywords
    (pyStr "Chronic STRESS and insomnia") (by decide)

lemma containsSub_eq_decide (a b : PyStr) : containsSub a b = decide (a <:+: b) := by
  by_cases h : a <:+: b
  · rw [(containsSub_iff_substring a b).mpr h, decide_eq_true h]
  · have hne : containsSub a b ≠ true := fun hc => h ((containsSub_iff_substring a b).mp hc)
    rw [Bool.eq_false_iff.mpr hne, decide_eq_false h]

/-- Number of keywords that occur as case-insensitive substrings of the
text, stated through the mathematical substring relation (the
specification's notion of `m`), independently of the program's scan. -/
def specMatchCount (keywords : List PyStr) (text : PyStr) : Nat :=
  keywords.countP (fun k => decide (pyLower k <:+: pyLower text))

lemma matchCount_eq_specMatchCount (keywords : List PyStr) (text : PyStr) :
    matchCount keywords text = specMatchCount keywords text := by
  unfold matchCount specMatchCount
  exact List.countP_congr fun a _ => by rw [containsSub_eq_decide]

/-- **C1, counterexample.**  With the keyword list consisting of the empty
string (size n = 1) and the empty input text, the empty keyword occurs as
a substring of the empty text (m = 1), so the score is min(2·1/1, 1) = 1:
an empty input text does not always yield 0.0. -/
theorem empty_keyword_empty_text_scores_one :
    get_confidence_score [([] : PyStr)] [] = 1 ∧ (1 : ℚ) ≠ 0 := by
  constructor
  · have h : matchCount [([] : PyStr)] [] = 1 := by decide
    simp only [get_confidence_score, h, List.length_singleton]
    norm_num
  · norm_num

/-- **C1, amended.**  For every keyword list of size n ≥ 1 and every text
in which exactly m of the keywords occur as case-insensitive substrings,
the score is exactly min(2m/n, 1); the result always lies in [0, 1], and
an empty input text yields 0 provided no keyword is the empty string. -/
theorem confidence_score_formula (keywords : List PyStr) (text : PyStr)
    (hne : keywords ≠ []) :
    get_confidence_score keywords text =
      min (2 * (specMatchCount keywords text : ℚ) / (keywords.length : ℚ)) 1 ∧
    0 ≤ get_confidence_score keywords text ∧
    get_confidence_score keywords text ≤ 1 ∧
    (([] : PyStr) ∉ keywords → get_confidence_score keywords [] = 0) := by
  refine ⟨?_, ?_, ?_, ?_⟩
  · rw [get_confidence_score, matchCount_eq_specMatchCount, div_mul_eq_mul_div,
      mul_comm]
  · exact le_min (by positivity) zero_le_one
  · exact min_le_right _ _
  · intro hmem
    have hzero : matchCount keywords [] = 0 := by
      rw [matchCount, List.countP_eq_zero]
      intro a ha
      have hanil : a ≠ [] := fun hn => hmem (hn ▸ ha)
      simp only [pyLower, List.map_nil, containsSub, List.isEmpty_iff,
        List.map_eq_nil_iff]
      exact hanil
    rw [get_confidence_score, hzero]
    norm_num

/-- Witness for C1 at the specification's own scenario: keywords
{"heart", "chest pain"}, text "Patient reports chest pain and normal labs",
m = 1, n = 2, score = min(2·1/2, 1) = 1; and the empty text scores 0 for
this keyword list. -/
theorem confidence_score_formula_witness :
    get_confidence_score [pyStr "heart", pyStr "chest pain"]
        (pyStr "Patient reports chest pain and normal labs") =
      min (2 * (specMatchCount [pyStr "heart", pyStr "chest pain"]
          (pyStr "Patient reports chest pain and normal labs") : ℚ) /
        (([pyStr "heart", pyStr "chest pain"] : List PyStr).length : ℚ)) 1 ∧
    get_confidence_score [pyStr "heart", pyStr "chest pain"] [] = 0 :=
  ⟨(confidence_score_formula [pyStr "heart", pyStr "chest pain"]
      (pyStr "Patient reports chest pain and normal labs") (by decide)).1,
   (confidence_score_formula [pyStr "heart", pyStr "chest pain"]
      (pyStr "Patient reports chest pain and normal labs") (by decide)).2.2.2 (by decide)⟩

/-- **C8.**  `route_to_agent` is deterministic and independent of
`medical_history`: calls with equal `report_text` and `symptoms` but
arbitrary histories return the identical primary key and confidence dict,
and only the concatenation `report_text + " " + symptoms` influences the
result. -/
theorem routing_ignores_medical_history (r s h₁ h₂ : PyStr) :
    route_to_agent r s h₁ = route_to_agent r s h₂ ∧
    (∀ r' s', routingText r s = routingText r' s' →
      route_to_agent r s h₁ = route_to_agent r' s' h₂) := by
  refine ⟨rfl, fun r' s' he => ?_⟩
  unfold route_to_agent
  rw [he]

/-- Witness for C8 at concrete inputs: the history field is ignored and
only the concatenated text matters. -/
theorem routing_ignores_medical_history_witness :
    route_to_agent (pyStr "a b") (pyStr "c") (pyStr "history one") =
      route_to_agent (pyStr "a") (pyStr "b c") (pyStr "history two") :=
  (routing_ignores_medical_history (pyStr "a b") (pyStr "c")
    (pyStr "history one") (pyStr "history two")).2 (pyStr "a") (pyStr "b c") (by decide)

/-- Confidence score of one specialty on the router's scoring text. -/
def specialtyScore (k : AgentKey) (report_text symptoms : PyStr) : ℚ :=
  get_confidence_score (keywordsOf k) (routingText report_text symptoms)

/-- The maximum confidence score over the three non-general specialties. -/
def maxSpecialtyScore (report_text symptoms : PyStr) : ℚ :=
  max (specialtyScore AgentKey.cardiology report_text symptoms)
    (max (specialtyScore AgentKey.psychology report_text symptoms)
      (specialtyScore AgentKey.pulmonology report_text symptoms))

/-- The confidence dict built by the router's scoring loop, in insertion
order. -/
def specialtyScoresList (report_text symptoms : PyStr) : List (AgentKey × ℚ) :=
  [(AgentKey.cardiology, specialtyScore AgentKey.cardiology report_text symptoms),
   (AgentKey.psychology, specialtyScore AgentKey.psychology report_text symptoms),
   (AgentKey.pulmonology, specialtyScore AgentKey.pulmonology report_text symptoms)]

lemma pyDictMax_three (k₁ k₂ k₃ : AgentKey) (s₁ s₂ s₃ : ℚ) :
    (pyDictMax (k₁, s₁) [(k₂, s₂), (k₃, s₃)]).2 = max s₁ (max s₂ s₃) ∧
    pyDictMax (k₁, s₁) [(k₂, s₂), (k₃, s₃)] ∈ [(k₁, s₁), (k₂, s₂), (k₃, s₃)] := by
  simp only [pyDictMax, List.mem_cons, List.mem_singleton]
  split_ifs with h₁ h₂ h₂
  · exact ⟨by rw [max_eq_right h₂.le, max_eq_right (h₁.trans h₂).le], by simp⟩
  · exact ⟨by rw [max_eq_left (not_lt.mp h₂), max_eq_right h₁.le], by simp⟩
  · exact ⟨by rw [max_eq_right ((not_lt.mp h₁).trans h₂.le), max_eq_right h₂.le], by simp⟩
  · exact ⟨by rw [max_eq_left (max_le (not_lt.mp h₁) (not_lt.mp h₂))], by simp⟩

/-- Case analysis of `route_to_agent`: either the best non-general score is
below 0.3 and the router falls back to general with sentinel score 1, or
some non-general specialty attains the maximum and is selected. -/
lemma route_shape (r s h : PyStr) :
    (maxSpecialtyScore r s < 3/10 ∧
      route_to_agent r s h =
        (AgentKey.general, specialtyScoresList r s ++ [(AgentKey.general, 1)])) ∨
    (3/10 ≤ maxSpecialtyScore r s ∧
      ∃ k, k ≠ AgentKey.general ∧
        k ∈ [AgentKey.cardiology, AgentKey.psychology, AgentKey.pulmonology] ∧
        specialtyScore k r s = maxSpecialtyScore r s ∧
        route_to_agent r s h = (k, specialtyScoresList r s)) := by
  set B := pyDictMax (AgentKey.cardiology, specialtyScore AgentKey.cardiology r s)
    [(AgentKey.psychology, specialtyScore AgentKey.psychology r s),
     (AgentKey.pulmonology, specialtyScore AgentKey.pulmonology r s)] with hBdef
  have hmax := pyDictMax_three AgentKey.cardiology AgentKey.psychology AgentKey.pulmonology
    (specialtyScore AgentKey.cardiology r s) (specialtyScore AgentKey.psychology r s)
    (specialtyScore AgentKey.pulmonology r s)
  rw [← hBdef] at hmax
  have hval : B.2 = maxSpecialtyScore r s := hmax.1
  have hroute : route_to_agent r s h =
      (if B.2 < 3/10
       then (AgentKey.general, specialtyScoresList r s ++ [(AgentKey.general, 1)])
       else (B.1, specialtyScoresList r s)) := rfl
  rcases lt_or_le (maxSpecialtyScore r s) (3/10 : ℚ) with hlt | hge
  · refine Or.inl ⟨hlt, ?_⟩
    rw [hroute, if_pos (by rw [hval]; exact hlt)]
  · refine Or.inr ⟨hge, ?_⟩
    rw [hroute, if_neg (by rw [hval]; exact not_lt.mpr hge)]
    have hmem := hmax.2
    simp only [List.mem_cons, List.not_mem_nil, or_false] at hmem
    rcases hmem with hb | hb | hb
    · exact ⟨AgentKey.cardiology, by simp, by simp,
        by rw [← hval, hb], by rw [hb]⟩
    · exact ⟨AgentKey.psychology, by simp, by simp,
        by rw [← hval, hb], by rw [hb]⟩
    · exact ⟨AgentKey.pulmonology, by simp, by simp,
        by rw [← hval, hb], by rw [hb]⟩

/-- **C2.**  If the maximum confidence score over the three non-general
specialties (computed on `report_text + " " + symptoms`) is strictly below
0.3 then the primary is "general" with recorded score exactly 1.0;
otherwise the primary is a non-general specialty attaining the maximum
score. -/
theorem threshold_fallback_law (r s h : PyStr) :
    (maxSpecialtyScore r s < 3/10 →
      (route_to_agent r s h).1 = AgentKey.general ∧
      lookupScore (route_to_agent r s h).2 AgentKey.general = some 1) ∧
    (3/10 ≤ maxSpecialtyScore r s →
      (route_to_agent r s h).1 ≠ AgentKey.general ∧
      lookupScore (route_to_agent r s h).2 (route_to_agent r s h).1 =
        some (maxSpecialtyScore r s)) := by
  rcases route_shape r s h with ⟨hlt, hroute⟩ | ⟨hge, k, hkg, hkmem, hkval, hroute⟩
  · constructor
    · intro _
      rw [hroute]
      exact ⟨rfl, by simp [specialtyScoresList, lookupScore]⟩
    · intro hge
      exact absurd hlt (not_lt.mpr hge)
  · constructor
    · intro hlt
      exact absurd hlt (not_lt.mpr hge)
    · intro _
      rw [hroute]
      refine ⟨hkg, ?_⟩
      simp only [List.mem_cons, List.not_mem_nil, or_false] at hkmem
      rcases hkmem with hk | hk | hk <;> rw [hk] at hkval ⊢ <;>
        simp [specialtyScoresList, lookupScore, ← hkval]

lemma score_eval (keywords : List PyStr) (text : PyStr) (m n : Nat)
    (hm : matchCount keywords text = m) (hn : keywords.length = n) :
    get_confidence_score keywords text = min ((m : ℚ) / (n : ℚ) * 2) 1 := by
  rw [get_confidence_score, hm, hn]

/-- Witness for C2 at two concrete inputs: the empty report (all scores 0,
fallback to general with sentinel 1.0) and a cardiology-heavy report
(maximum score 12/29 ≥ 0.3, primary is a non-general specialty attaining
the maximum). -/
theorem threshold_fallback_law_witness :
    ((route_to_agent [] [] []).1 = AgentKey.general ∧
      lookupScore (route_to_agent [] [] []).2 AgentKey.general = some 1) ∧
    ((route_to_agent (pyStr "heart cardiac coronary artery angina") [] []).1 ≠
        AgentKey.general ∧
      lookupScore (route_to_agent (pyStr "heart cardiac coronary artery angina") [] []).2
          (route_to_agent (pyStr "heart cardiac coronary artery angina") [] []).1 =
        some (maxSpecialtyScore (pyStr "heart cardiac coronary artery angina") [])) := by
  constructor
  · refine (threshold_fallback_law [] [] []).1 ?_
    have h1 : get_confidence_score cardiologyKeywords (routingText [] []) = 0 := by
      rw [score_eval cardiologyKeywords (routingText [] []) 0 29 (by decide) rfl]
      norm_num [min_def]
    have h2 : get_confidence_score psychologyKeywords (routingText [] []) = 0 := by
      rw [score_eval psychologyKeywords (routingText [] []) 0 30 (by decide) rfl]
      norm_num [min_def]
    have h3 : get_confidence_score pulmonologyKeywords (routingText [] []) = 0 := by
      rw [score_eval pulmonologyKeywords (routingText [] []) 0 28 (by decide) rfl]
      norm_num [min_def]
    simp only [maxSpecialtyScore, specialtyScore, keywordsOf]
    rw [h1, h2, h3, max_self, max_self]
    norm_num
  · refine (threshold_fallback_law (pyStr "heart cardiac coronary artery angina") [] []).2 ?_
    have h1 : get_confidence_score cardiologyKeywords
        (routingText (pyStr "heart cardiac coronary artery angina") []) = 10/29 := by
      rw [score_eval cardiologyKeywords _ 5 29 (by decide) rfl]
      norm_num [min_def]
    have h2 : get_confidence_score psychologyKeywords
        (routingText (pyStr "heart cardiac coronary artery angina") []) = 0 := by
      rw [score_eval psychologyKeywords _ 0 30 (by decide) rfl]
      norm_num [min_def]
    have h3 : get_confidence_score pulmonologyKeywords
        (routingText (pyStr "heart cardiac coronary artery angina") []) = 0 := by
      rw [score_eval pulmonologyKeywords _ 0 28 (by decide) rfl]
      norm_num [min_def]
    simp only [maxSpecialtyScore, specialtyScore, keywordsOf]
    rw [h1, h2, h3, max_self, max_eq_left (by norm_num : (0:ℚ) ≤ 10/29)]
    norm_num

lemma multi_primary_eq (r s h : PyStr) :
    (get_multi_agent_analysis r s h).primary_key = (route_to_agent r s h).1 := rfl

lemma multi_secondary_eq (r s h : PyStr) :
    (get_multi_agent_analysis r s h).secondary =
      (route_to_agent r s h).2.filter
        (fun p => decide (p.1 ≠ (route_to_agent r s h).1) && decide ((1:ℚ)/5 < p.2)) := rfl

lemma mem_map_fst_filter_iff (pk k : AgentKey) (l : List (AgentKey × ℚ)) :
    (k ∈ (l.filter (fun p => decide (p.1 ≠ pk) && decide ((1:ℚ)/5 < p.2))).map Prod.fst) ↔
      ∃ q, (k, q) ∈ l ∧ k ≠ pk ∧ 1/5 < q := by
  simp only [List.mem_map, List.mem_filter, Bool.and_eq_true, decide_eq_true_eq]
  constructor
  · rintro ⟨⟨a, q⟩, ⟨hpl, hne, hq⟩, hfst⟩
    simp only at hfst
    subst hfst
    exact ⟨q, hpl, hne, hq⟩
  · rintro ⟨q, hql, hne, hq⟩
    exact ⟨(k, q), ⟨hql, hne, hq⟩, rfl⟩

lemma mem_specialtyScoresList (k : AgentKey) (r s : PyStr)
    (hk : k ∈ [AgentKey.cardiology, AgentKey.psychology, AgentKey.pulmonology]) :
    (k, specialtyScore k r s) ∈ specialtyScoresList r s := by
  simp only [List.mem_cons, List.not_mem_nil, or_false] at hk
  rcases hk with hk | hk | hk <;> subst hk <;> simp [specialtyScoresList]

lemma specialtyScoresList_key_val (k : AgentKey) (q : ℚ) (r s : PyStr)
    (hql : (k, q) ∈ specialtyScoresList r s) : q = specialtyScore k r s := by
  simp only [specialtyScoresList, List.mem_cons, List.not_mem_nil, or_false,
    Prod.mk.injEq] at hql
  rcases hql with ⟨hk, hq⟩ | ⟨hk, hq⟩ | ⟨hk, hq⟩ <;> subst hk <;> exact hq

lemma not_mem_map_fst_filter_self (pk : AgentKey) (l : List (AgentKey × ℚ)) :
    pk ∉ (l.filter (fun p => decide (p.1 ≠ pk) && decide ((1:ℚ)/5 < p.2))).map Prod.fst := by
  intro hm
  rcases (mem_map_fst_filter_iff pk pk l).mp hm with ⟨q, _, hne, _⟩
  exact hne rfl

/-- **C3.**  In `get_multi_agent_analysis`, a non-general specialty
distinct from the primary is in the secondary set exactly when its
confidence score exceeds 0.2, and the secondary set never contains the
primary agent. -/
theorem secondary_set_law (r s h : PyStr) :
    (∀ k, k ∈ [AgentKey.cardiology, AgentKey.psychology, AgentKey.pulmonology] →
      k ≠ (get_multi_agent_analysis r s h).primary_key →
      (k ∈ (get_multi_agent_analysis r s h).secondary.map Prod.fst ↔
        1/5 < specialtyScore k r s)) ∧
    (get_multi_agent_analysis r s h).primary_key ∉
      (get_multi_agent_analysis r s h).secondary.map Prod.fst := by
  refine ⟨?_, ?_⟩
  · intro k hk hkpk
    rw [multi_primary_eq] at hkpk
    rw [multi_secondary_eq, mem_map_fst_filter_iff]
    rcases route_shape r s h with ⟨hlt, hroute⟩ | ⟨hge, k₀, hk₀g, hk₀mem, hk₀val, hroute⟩ <;>
      rw [hroute] at hkpk ⊢
    · constructor
      · rintro ⟨q, hql, hkg, hq⟩
        rcases List.mem_append.mp hql with hql | hql
        · exact (specialtyScoresList_key_val k q r s hql) ▸ hq
        · have hkgen : k = AgentKey.general :=
            congrArg Prod.fst (List.mem_singleton.mp hql)
          exact absurd hkgen hkg
      · intro hq
        exact ⟨specialtyScore k r s,
          List.mem_append_left _ (mem_specialtyScoresList k r s hk), hkpk, hq⟩
    · constructor
      · rintro ⟨q, hql, hkg, hq⟩
        exact (specialtyScoresList_key_val k q r s hql) ▸ hq
      · intro hq
        exact ⟨specialtyScore k r s, mem_specialtyScoresList k r s hk, hkpk, hq⟩
  · rw [multi_secondary_eq, multi_primary_eq]
    exact not_mem_map_fst_filter_self _ _

/-- Report text used to witness the secondary fan-out: six cardiology
keywords (score 12/29 ≥ 0.3) and four pulmonology keywords
(score 8/28 = 2/7 > 0.2). -/
def fanoutReport : PyStr :=
  pyStr "heart cardiac coronary artery angina chest pain lung asthma cough"

/-- Witness for C3: on `fanoutReport` the primary is cardiology, the
pulmonology agent (score 2/7 > 0.2) is in the secondary set, and the
primary is not. -/
theorem secondary_set_law_witness :
    AgentKey.pulmonology ∈
      (get_multi_agent_analysis fanoutReport [] []).secondary.map Prod.fst ∧
    (get_multi_agent_analysis fanoutReport [] []).primary_key ∉
      (get_multi_agent_analysis fanoutReport [] []).secondary.map Prod.fst := by
  have e1 : get_confidence_score cardiologyKeywords (routingText fanoutReport []) = 12/29 := by
    rw [score_eval cardiologyKeywords _ 6 29 (by decide) rfl]
    norm_num [min_def]
  have e2 : get_confidence_score psychologyKeywords (routingText fanoutReport []) = 0 := by
    rw [score_eval psychologyKeywords _ 0 30 (by decide) rfl]
    norm_num [min_def]
  have e3 : get_confidence_score pulmonologyKeywords (routingText fanoutReport []) = 2/7 := by
    rw [score_eval pulmonologyKeywords _ 4 28 (by decide) rfl]
    norm_num [min_def]
  have hS1 : specialtyScore AgentKey.cardiology fanoutReport [] = 12/29 := e1
  have hS2 : specialtyScore AgentKey.psychology fanoutReport [] = 0 := e2
  have hS3 : specialtyScore AgentKey.pulmonology fanoutReport [] = 2/7 := e3
  have hmaxv : maxSpecialtyScore fanoutReport [] = 12/29 := by
    rw [maxSpecialtyScore, hS1, hS2, hS3,
      max_eq_right (by norm_num : (0:ℚ) ≤ 2/7),
      max_eq_left (by norm_num : (2:ℚ)/7 ≤ 12/29)]
  have hprim : (get_multi_agent_analysis fanoutReport [] []).primary_key =
      AgentKey.cardiology := by
    rw [multi_primary_eq]
    rcases route_shape fanoutReport [] [] with ⟨hlt, _⟩ |
        ⟨_, k₀, hk₀g, hk₀mem, hk₀val, hroute⟩
    · rw [hmaxv] at hlt
      norm_num at hlt
    · rw [hroute]
      simp only [List.mem_cons, List.not_mem_nil, or_false] at hk₀mem
      rcases hk₀mem with hk | hk | hk
      · rw [hk]
      · rw [hk] at hk₀val
        rw [hS2, hmaxv] at hk₀val
        norm_num at hk₀val
      · rw [hk] at hk₀val
        rw [hS3, hmaxv] at hk₀val
        norm_num at hk₀val
  refine ⟨((secondary_set_law fanoutReport [] []).1 AgentKey.pulmonology (by simp)
      (by rw [hprim]; intro he; cases he)).mpr (by rw [hS3]; norm_num),
    (secondary_set_law fanoutReport [] []).2⟩

/-- **C4, counterexample.**  Constructing a specialized agent with an empty
keyword set does not fail: the constructor performs no validation and
returns the agent record, raising no configuration error. -/
theorem empty_keyword_construction_succeeds :
    initSpecializedAgent (pyStr "Cardiology") (pyStr "C") [] =
      Except.ok ⟨pyStr "Cardiology", pyStr "C", []⟩ := rfl

/-- **C4, amended.**  Neither agent nor router construction performs any
keyword validation (construction always succeeds); however all four
concrete agents carry non-empty hardcoded keyword lists, so the division
by the keyword-list length in `get_confidence_score` never divides by
zero for any agent the router scores. -/
theorem concrete_keyword_sets_nonempty :
    initMedicalAgentRouter.toOption.isSome = true ∧
    ∀ k : AgentKey, keywordsOf k ≠ [] ∧ ((keywordsOf k).length : ℚ) ≠ 0 := by
  refine ⟨rfl, fun k => ?_⟩
  have hlen : (keywordsOf k).length ≠ 0 := by cases k <;> decide
  refine ⟨fun hnil => hlen (by rw [hnil]; rfl), ?_⟩
  exact_mod_cast hlen

lemma retryLoop_all_rateLimit (backend : Nat → Except PyStr PyStr) (jitter : Nat → ℚ)
    (baseDelay : ℚ) (maxRetries : Nat)
    (hb : ∀ j, j < maxRetries → ∃ e, backend j = Except.error e ∧ isRateLimitError e = true) :
    ∀ fuel i, i + fuel = maxRetries → 1 ≤ fuel →
      retryLoop backend jitter baseDelay maxRetries i fuel =
        (serviceUnavailableMsg, fuel,
          (List.range' i (fuel - 1)).map (fun j => baseDelay * 2 ^ j + jitter j)) := by
  intro fuel
  induction fuel with
  | zero => intro i _ hone; exact absurd hone (by omega)
  | succ f ih =>
    intro i hif _
    obtain ⟨e, he, hrl⟩ := hb i (by omega)
    by_cases hi : i < maxRetries - 1
    · have hf : 1 ≤ f := by omega
      have hrec := ih (i + 1) (by omega) hf
      have hsl : List.range' i f = i :: List.range' (i + 1) (f - 1) := by
        conv_lhs => rw [show f = (f - 1) + 1 by omega]
        exact List.range'_succ i (f - 1) 1
      simp only [retryLoop, he, hrl, if_true, if_pos hi, hrec, Nat.succ_sub_one, hsl,
        List.map_cons]
    · have hf0 : f = 0 := by omega
      subst hf0
      simp [retryLoop, he, hrl, if_neg hi]

/-- **C6.**  On a backend whose every attempt raises a rate-limit-classified
error, `make_api_call_with_retry` makes exactly `maxRetries` backend
attempts, sleeps exactly `maxRetries - 1` times, each sleep bounded below
by `baseDelay * 2^i` for attempt `i` (the jitter drawn from [0,1) is
nonnegative), and returns the fixed service-unavailable text; the call is
a total function, so no exception reaches the caller. -/
theorem retry_exhaustion_law (backend : Nat → Except PyStr PyStr) (jitter : Nat → ℚ)
    (baseDelay : ℚ) (maxRetries : Nat) (hmr : 1 ≤ maxRetries)
    (hb : ∀ j, j < maxRetries → ∃ e, backend j = Except.error e ∧ isRateLimitError e = true)
    (hj : ∀ j, 0 ≤ jitter j) :
    (make_api_call_with_retry backend jitter maxRetries baseDelay).1 = serviceUnavailableMsg ∧
    (make_api_call_with_retry backend jitter maxRetries baseDelay).2.1 = maxRetries ∧
    (make_api_call_with_retry backend jitter maxRetries baseDelay).2.2.length = maxRetries - 1 ∧
    ∀ idx, (hlen : idx < (make_api_call_with_retry backend jitter maxRetries baseDelay).2.2.length) →
      baseDelay * 2 ^ idx ≤
        (make_api_call_with_retry backend jitter maxRetries baseDelay).2.2.get ⟨idx, hlen⟩ := by
  have h := retryLoop_all_rateLimit backend jitter baseDelay maxRetries hb maxRetries 0
    (by omega) hmr
  rw [make_api_call_with_retry, h]
  refine ⟨rfl, rfl, by simp, ?_⟩
  intro idx hlen
  have hidx : idx < maxRetries - 1 := by simpa using hlen
  simp only [List.get_eq_getElem, List.getElem_map, List.getElem_range'_1, Nat.zero_add]
  exact le_add_of_nonneg_right (hj idx)

def quotaBackend : Nat → Except PyStr PyStr :=
  fun _ => Except.error (pyStr "429 quota exceeded for model")

def zeroJitter : Nat → ℚ := fun _ => 0

/-- Witness for C6: a backend that always raises a 429 quota error, three
retries, unit base delay and zero jitter. -/
theorem retry_exhaustion_law_witness :
    (make_api_call_with_retry quotaBackend zeroJitter 3 1).1 = serviceUnavailableMsg ∧
    (make_api_call_with_retry quotaBackend zeroJitter 3 1).2.1 = 3 ∧
    (make_api_call_with_retry quotaBackend zeroJitter 3 1).2.2.length = 3 - 1 ∧
    ∀ idx, (hlen : idx < (make_api_call_with_retry quotaBackend zeroJitter 3 1).2.2.length) →
      (1:ℚ) * 2 ^ idx ≤ (make_api_call_with_retry quotaBackend zeroJitter 3 1).2.2.get ⟨idx, hlen⟩ :=
  retry_exhaustion_law quotaBackend zeroJitter 1 3 (by omega)
    (by intro j hj; exact ⟨pyStr "429 quota exceeded for model", rfl, by decide⟩)
    (fun j => le_refl 0)

lemma retryLoop_succeeds_after (backend : Nat → Except PyStr PyStr) (jitter : Nat → ℚ)
    (baseDelay : ℚ) (maxRetries k : Nat) (t : PyStr)
    (hk : k < maxRetries) (ht : backend k = Except.ok t)
    (hb : ∀ j, j < k → ∃ e, backend j = Except.error e ∧ isRateLimitError e = true) :
    ∀ fuel i, i + fuel = maxRetries → i ≤ k →
      retryLoop backend jitter baseDelay maxRetries i fuel =
        (t, k - i + 1, (List.range' i (k - i)).map (fun j => baseDelay * 2 ^ j + jitter j)) := by
  intro fuel
  induction fuel with
  | zero => intro i hif hik; exact absurd hik (by omega)
  | succ f ih =>
    intro i hif hik
    rcases eq_or_lt_of_le hik with hik' | hik'
    · subst hik'
      simp [retryLoop, ht, Nat.sub_self]
    · obtain ⟨e, he, hrl⟩ := hb i hik'
      have hi : i < maxRetries - 1 := by omega
      have hrec := ih (i + 1) (by omega) (by omega)
      have hsl : List.range' i (k - i) = i :: List.range' (i + 1) (k - (i + 1)) := by
        conv_lhs => rw [show k - i = (k - (i + 1)) + 1 by omega]
        exact List.range'_succ i (k - (i + 1)) 1
      simp only [retryLoop, he, hrl, if_true, if_pos hi, hrec, hsl, List.map_cons,
        Prod.mk.injEq, true_and, and_true]
      omega

/-- **C7.**  A non-rate-limit error on the first attempt yields the generic
failure text after exactly one attempt, with no retry and no sleep; and a
backend that raises rate-limit errors on exactly the first k < maxRetries
attempts and then succeeds yields the backend's text after k + 1 attempts
and exactly k sleeps. -/
theorem non_rate_limit_and_staged_retry_law (backend : Nat → Except PyStr PyStr)
    (jitter : Nat → ℚ) (baseDelay : ℚ) (maxRetries k : Nat) (t e : PyStr) :
    (1 ≤ maxRetries → backend 0 = Except.error e → isRateLimitError e = false →
      make_api_call_with_retry backend jitter maxRetries baseDelay =
        (genericFailureMsg, 1, [])) ∧
    (k < maxRetries → backend k = Except.ok t →
      (∀ j, j < k → ∃ e', backend j = Except.error e' ∧ isRateLimitError e' = true) →
      (make_api_call_with_retry backend jitter maxRetries baseDelay).1 = t ∧
      (make_api_call_with_retry backend jitter maxRetries baseDelay).2.1 = k + 1 ∧
      (make_api_call_with_retry backend jitter maxRetries baseDelay).2.2 =
        (List.range' 0 k).map (fun j => baseDelay * 2 ^ j + jitter j) ∧
      (make_api_call_with_retry backend jitter maxRetries baseDelay).2.2.length = k) := by
  constructor
  · intro hmr he hrl
    obtain ⟨f, rfl⟩ : ∃ f, maxRetries = f + 1 := ⟨maxRetries - 1, by omega⟩
    simp [make_api_call_with_retry, retryLoop, he, hrl]
  · intro hk ht hb
    have h := retryLoop_succeeds_after backend jitter baseDelay maxRetries k t hk ht hb
      maxRetries 0 (by omega) (by omega)
    rw [make_api_call_with_retry, h]
    refine ⟨rfl, rfl, by simp, by simp⟩

def plainFailBackend : Nat → Except PyStr PyStr :=
  fun _ => Except.error (pyStr "boom: connection reset")

def flakyBackend : Nat → Except PyStr PyStr := fun i =>
  if i < 2 then Except.error (pyStr "HTTP 429 too many requests")
  else Except.ok (pyStr "diagnosis text")

/-- Witness for C7: a non-rate-limit backend fails immediately with no
sleep; a backend that rate-limits exactly twice then succeeds returns the
backend text after two sleeps. -/
theorem non_rate_limit_and_staged_retry_law_witness :
    make_api_call_with_retry plainFailBackend zeroJitter 3 1 = (genericFailureMsg, 1, []) ∧
    (make_api_call_with_retry flakyBackend zeroJitter 3 1).1 = pyStr "diagnosis text" ∧
    (make_api_call_with_retry flakyBackend zeroJitter 3 1).2.1 = 2 + 1 ∧
    (make_api_call_with_retry flakyBackend zeroJitter 3 1).2.2.length = 2 :=
  ⟨(non_rate_limit_and_staged_retry_law plainFailBackend zeroJitter 1 3 0
      (pyStr "x") (pyStr "boom: connection reset")).1 (by omega) rfl (by decide),
   ((non_rate_limit_and_staged_retry_law flakyBackend zeroJitter 1 3 2
      (pyStr "diagnosis text") (pyStr "x")).2 (by omega) rfl
      (fun j hj => ⟨pyStr "HTTP 429 too many requests",
        by simp [flakyBackend, hj], by decide⟩)).1,
   ((non_rate_limit_and_staged_retry_law flakyBackend zeroJitter 1 3 2
      (pyStr "diagnosis text") (pyStr "x")).2 (by omega) rfl
      (fun j hj => ⟨pyStr "HTTP 429 too many requests",
        by simp [flakyBackend, hj], by decide⟩)).2.1,
   ((non_rate_limit_and_staged_retry_law flakyBackend zeroJitter 1 3 2
      (pyStr "diagnosis text") (pyStr "x")).2 (by omega) rfl
      (fun j hj => ⟨pyStr "HTTP 429 too many requests",
        by simp [flakyBackend, hj], by decide⟩)).2.2.2⟩

lemma retryLoop_trichotomy (backend : Nat → Except PyStr PyStr) (jitter : Nat → ℚ)
    (baseDelay : ℚ) (maxRetries : Nat) :
    ∀ fuel i, i + fuel = maxRetries → 1 ≤ fuel →
      (retryLoop backend jitter baseDelay maxRetries i fuel).1 = serviceUnavailableMsg ∨
      (retryLoop backend jitter baseDelay maxRetries i fuel).1 = genericFailureMsg ∨
      ∃ j, j < maxRetries ∧
        backend j = Except.ok (retryLoop backend jitter baseDelay maxRetries i fuel).1 := by
  intro fuel
  induction fuel with
  | zero => intro i _ hone; exact absurd hone (by omega)
  | succ f ih =>
    intro i hif _
    cases hbi : backend i with
    | ok t =>
      refine Or.inr (Or.inr ⟨i, by omega, ?_⟩)
      simp [retryLoop, hbi]
    | error e =>
      by_cases hrl : isRateLimitError e = true
      · by_cases hi : i < maxRetries - 1
        · have hf : 1 ≤ f := by omega
          have hstep : (retryLoop backend jitter baseDelay maxRetries i (f + 1)).1 =
              (retryLoop backend jitter baseDelay maxRetries (i + 1) f).1 := by
            simp [retryLoop, hbi, hrl, hi]
          rw [hstep]
          exact ih (i + 1) (by omega) hf
        · refine Or.inl ?_
          simp [retryLoop, hbi, hrl, hi]
      · rw [Bool.not_eq_true] at hrl
        refine Or.inr (Or.inl ?_)
        simp [retryLoop, hbi, hrl]

lemma retryLoop_pos_attempts (backend : Nat → Except PyStr PyStr) (jitter : Nat → ℚ)
    (baseDelay : ℚ) (maxRetries i f : Nat) :
    1 ≤ (retryLoop backend jitter baseDelay maxRetries i (f + 1)).2.1 := by
  rw [retryLoop]
  cases backend i with
  | ok t => simp
  | error e =>
    by_cases hrl : isRateLimitError e = true <;> by_cases hi : i < maxRetries - 1 <;>
      simp [hrl, hi]

/-- **C10.**  For every maxRetries ≥ 1 the call returns one of exactly
three kinds of text — a text produced by the backend, the fixed
service-unavailable text, or the fixed generic-failure text — and always
returns from inside the loop (at least one backend attempt is made), so
the trailing return after the loop is unreachable; that trailing return
(attempt count 0) is produced only in the maxRetries = 0 case. -/
theorem retry_result_trichotomy (backend : Nat → Except PyStr PyStr) (jitter : Nat → ℚ)
    (baseDelay : ℚ) (maxRetries : Nat) :
    (1 ≤ maxRetries →
      ((make_api_call_with_retry backend jitter maxRetries baseDelay).1 = serviceUnavailableMsg ∨
       (make_api_call_with_retry backend jitter maxRetries baseDelay).1 = genericFailureMsg ∨
       ∃ j, j < maxRetries ∧ backend j =
         Except.ok (make_api_call_with_retry backend jitter maxRetries baseDelay).1) ∧
      1 ≤ (make_api_call_with_retry backend jitter maxRetries baseDelay).2.1) ∧
    make_api_call_with_retry backend jitter 0 baseDelay = (maxRetriesExceededMsg, 0, []) := by
  constructor
  · intro hmr
    constructor
    · exact retryLoop_trichotomy backend jitter baseDelay maxRetries maxRetries 0 (by omega) hmr
    · obtain ⟨f, hf⟩ : ∃ f, maxRetries = f + 1 := ⟨maxRetries - 1, by omega⟩
      rw [make_api_call_with_retry]
      subst hf
      exact retryLoop_pos_attempts backend jitter baseDelay (f + 1) 0 f
  · rfl

def okBackend : Nat → Except PyStr PyStr := fun _ => Except.ok (pyStr "fine")

/-- Witness for C10 at a succeeding backend with three retries. -/
theorem retry_result_trichotomy_witness :
    ((make_api_call_with_retry okBackend zeroJitter 3 1).1 = serviceUnavailableMsg ∨
     (make_api_call_with_retry okBackend zeroJitter 3 1).1 = genericFailureMsg ∨
     ∃ j, j < 3 ∧ okBackend j =
       Except.ok (make_api_call_with_retry okBackend zeroJitter 3 1).1) ∧
    1 ≤ (make_api_call_with_retry okBackend zeroJitter 3 1).2.1 :=
  (retry_result_trichotomy okBackend zeroJitter 1 3).1 (by omega)

/-- **C5 (amended form).**  For a prompt longer than the budget, the system
portion (the newline-join of all lines strictly before the first marker
line) is always preserved verbatim as a prefix of the result; when the
recombined system and content parts still exceed the budget, the result
contains the truncation marker, and when additionally the system portion
is at most budget - 100 characters long, the result's length is at most
the budget. -/
theorem optimize_prompt_truncation_law (prompt : PyStr) (max_tokens : Nat)
    (hlong : prompt.length > max_tokens) :
    joinLines (partitionAtMarker (splitLines prompt)).1 <+:
      optimize_prompt prompt max_tokens ∧
    ((joinLines (partitionAtMarker (splitLines prompt)).1 ++
        joinLines (partitionAtMarker (splitLines prompt)).2).length > max_tokens →
      truncationMarker <:+: optimize_prompt prompt max_tokens ∧
      ((joinLines (partitionAtMarker (splitLines prompt)).1).length + 100 ≤ max_tokens →
        (optimize_prompt prompt max_tokens).length ≤ max_tokens)) := by
  simp only [optimize_prompt, if_pos hlong]
  set sys := joinLines (partitionAtMarker (splitLines prompt)).1 with hsys
  set content := joinLines (partitionAtMarker (splitLines prompt)).2 with hcontent
  constructor
  · by_cases hbig : (sys ++ content).length > max_tokens
    · rw [if_pos hbig]
      exact List.prefix_append _ _
    · rw [if_neg hbig]
      exact List.prefix_append _ _
  · intro hbig
    rw [if_pos hbig]
    have hTN : truncationNotice = 10 :: 10 :: truncationMarker := by decide
    constructor
    · rw [hTN]
      refine List.IsSuffix.isInfix ?_
      have hassoc : sys ++ 10 ::
          (pySliceTo content ((max_tokens : Int) - (sys.length : Int) - 100) ++
            (10 :: 10 :: truncationMarker)) =
          (sys ++ 10 ::
            (pySliceTo content ((max_tokens : Int) - (sys.length : Int) - 100) ++ [10, 10])) ++
            truncationMarker := by
        simp
      rw [hassoc]
      exact List.suffix_append _ _
    · intro hsys100
      have hK0 : (0 : Int) ≤ (max_tokens : Int) - (sys.length : Int) - 100 := by omega
      rw [pySliceTo, if_neg (not_lt.mpr hK0)]
      have htn : truncationNotice.length = 43 := by decide
      have hsl : (content.take ((max_tokens : Int) - (sys.length : Int) - 100).toNat).length ≤
          ((max_tokens : Int) - (sys.length : Int) - 100).toNat := by
        simp [List.length_take]
      simp only [List.length_append, List.length_cons, htn]
      omega

lemma partitionAtMarker_cons_true (l : PyStr) (ls : List PyStr)
    (h : isMarkerLine l = true) : partitionAtMarker (l :: ls) = ([], l :: ls) := by
  rw [partitionAtMarker, if_pos h]

lemma partitionAtMarker_cons_false (l : PyStr) (ls : List PyStr)
    (h : isMarkerLine l = false) :
    partitionAtMarker (l :: ls) =
      (l :: (partitionAtMarker ls).1, (partitionAtMarker ls).2) := by
  rw [partitionAtMarker]
  rw [if_neg (by rw [h]; exact Bool.false_ne_true)]

lemma containsSub_cons_replicate (c : Nat) (sub : PyStr) (a : Nat) (h : c ≠ a) :
    ∀ n, containsSub (c :: sub) (List.replicate n a) = false := by
  intro n
  induction n with
  | zero => simp [containsSub]
  | succ m ih =>
    rw [List.replicate_succ, containsSub]
    simp [List.isPrefixOf, ih, h]

lemma splitLines_replicate97 (rest : PyStr) :
    ∀ n, splitLines (List.replicate n 97 ++ 10 :: rest) =
      List.replicate n 97 :: splitLines rest := by
  intro n
  induction n with
  | zero => simp [splitLines]
  | succ m ih =>
    rw [List.replicate_succ, List.cons_append, splitLines]
    simp [ih, List.replicate_succ]

/-- The prompt that exhibits the boundary defect: 1986 letters, a newline,
then the marker line "Please analyze"; its length is 2001. -/
def edgePrompt : PyStr := List.replicate 1986 97 ++ 10 :: pyStr "Please analyze"

/-- **C5, counterexample.**  `edgePrompt` is longer than the default budget
2000, yet `optimize_prompt` returns it completely unchanged: the joined
system and content parts measure exactly 2000 characters, so the inner
truncation step is skipped, the returned prompt still exceeds the budget,
and no truncation marker occurs in it. -/
theorem optimize_prompt_budget_edge :
    edgePrompt.length = 2001 ∧
    optimize_prompt edgePrompt 2000 = edgePrompt ∧
    ¬ truncationMarker <:+: optimize_prompt edgePrompt 2000 := by
  have h14 : (pyStr "Please analyze").length = 14 := rfl
  have hlen : edgePrompt.length = 2001 := by
    rw [edgePrompt, List.length_append, List.length_replicate, List.length_cons, h14]
  have hsplit : splitLines edgePrompt = [List.replicate 1986 97, pyStr "Please analyze"] := by
    rw [edgePrompt, splitLines_replicate97]
    rfl
  have hmark1 : isMarkerLine (List.replicate 1986 97) = false := by
    rw [isMarkerLine,
      show pyStr "MEDICAL REPORT:" = 77 :: pyStr "EDICAL REPORT:" from rfl,
      show pyStr "Please analyze" = 80 :: pyStr "lease analyze" from rfl,
      containsSub_cons_replicate 77 _ 97 (by omega) 1986,
      containsSub_cons_replicate 80 _ 97 (by omega) 1986]
    rfl
  have hmark2 : isMarkerLine (pyStr "Please analyze") = true := by decide
  have hpart : partitionAtMarker (splitLines edgePrompt) =
      ([List.replicate 1986 97], [pyStr "Please analyze"]) := by
    rw [hsplit, partitionAtMarker_cons_false _ _ hmark1,
      partitionAtMarker_cons_true _ _ hmark2]
  have hopt : optimize_prompt edgePrompt 2000 = edgePrompt := by
    rw [optimize_prompt, if_pos (by rw [hlen]; omega)]
    simp only [hpart]
    have hj1 : joinLines [List.replicate 1986 97] = List.replicate 1986 97 := rfl
    have hj2 : joinLines [pyStr "Please analyze"] = pyStr "Please analyze" := rfl
    have hlen2 : (List.replicate 1986 97 ++ pyStr "Please analyze").length = 2000 := by
      rw [List.length_append, List.length_replicate, h14]
    rw [hj1, hj2, if_neg (by rw [hlen2]; omega)]
    rw [edgePrompt]
  refine ⟨hlen, hopt, ?_⟩
  rw [hopt]
  intro hinf
  have h91 : (91 : Nat) ∈ truncationMarker := by decide
  have hmem : (91 : Nat) ∈ edgePrompt := hinf.sublist.subset h91
  rcases List.mem_append.mp hmem with hmem | hmem
  · exact absurd (List.eq_of_mem_replicate hmem) (by omega)
  · exact absurd hmem (by decide)

/-- A prompt for the witness of the truncation law: a three-character
system line, then a marker line padded to 154 characters; with budget 150
the prompt (158 chars) is truncated. -/
def longPrompt : PyStr := pyStr "sys" ++ 10 :: (pyStr "Please analyze" ++ List.replicate 140 97)

/-- Witness for C5 at `longPrompt` with budget 150: the system portion is a
prefix of the result, the truncation marker occurs in the result, and the
result fits in the budget. -/
theorem optimize_prompt_truncation_law_witness :
    joinLines (partitionAtMarker (splitLines longPrompt)).1 <+:
      optimize_prompt longPrompt 150 ∧
    truncationMarker <:+: optimize_prompt longPrompt 150 ∧
    (optimize_prompt longPrompt 150).length ≤ 150 := by
  have h := optimize_prompt_truncation_law longPrompt 150 (by decide)
  exact ⟨h.1, (h.2 (by decide)).1, (h.2 (by decide)).2 (by decide)⟩
